import Mathlib

/-!
# Verification of the OAuth 2.1 / MCP gateway core

A shallow embedding, in Lean 4, of the OAuth authorization-server service
(`app/services/oauth_server_service.py`), the token endpoint
(`app/routes/oauth_server.py`) and the MCP auth dispatcher and JSON-RPC
gateway (`app/routes/mcp.py`).  Machine words are `Nat` with explicit
`% 2^32`; time is `Nat` seconds; the database is an explicit record of
lists; random token material is passed in as parameters.
-/

set_option maxRecDepth 100000

namespace MetricChat

/-! ## 32-bit words as `Nat` -/

/-- Truncate to a 32-bit word. -/
def w32 (x : Nat) : Nat := x % 4294967296

/-- 32-bit wrapping addition. -/
def wadd (a b : Nat) : Nat := (a + b) % 4294967296

/-- 32-bit complement (inputs are kept below `2^32`). -/
def wnot (x : Nat) : Nat := x ^^^ 4294967295

/-- Right rotation of a 32-bit word by `n` places. -/
def rotr (x n : Nat) : Nat := w32 ((x >>> n) ||| (x <<< (32 - n)))

/-! ## SHA-256 (FIPS 180-4) over byte lists -/

/-- `Ch(x,y,z)`. -/
def ch (x y z : Nat) : Nat := (x &&& y) ^^^ (wnot x &&& z)

/-- `Maj(x,y,z)`. -/
def maj (x y z : Nat) : Nat := (x &&& y) ^^^ (x &&& z) ^^^ (y &&& z)

/-- Big sigma 0. -/
def bsig0 (x : Nat) : Nat := rotr x 2 ^^^ rotr x 13 ^^^ rotr x 22

/-- Big sigma 1. -/
def bsig1 (x : Nat) : Nat := rotr x 6 ^^^ rotr x 11 ^^^ rotr x 25

/-- Small sigma 0. -/
def ssig0 (x : Nat) : Nat := rotr x 7 ^^^ rotr x 18 ^^^ (x >>> 3)

/-- Small sigma 1. -/
def ssig1 (x : Nat) : Nat := rotr x 17 ^^^ rotr x 19 ^^^ (x >>> 10)

/-- The eight-word SHA-256 chaining state. -/
structure Sha2State where
  h0 : Nat
  h1 : Nat
  h2 : Nat
  h3 : Nat
  h4 : Nat
  h5 : Nat
  h6 : Nat
  h7 : Nat
deriving Repr, DecidableEq

/-- SHA-256 initial hash value. -/
def shaIV : Sha2State :=
  ⟨1779033703, 3144134277, 1013904242, 2773480762,
   1359893119, 2600822924, 528734635, 1541459225⟩

/-- The 64 SHA-256 round constants (FIPS 180-4, in decimal). -/
def shaK : List Nat :=
  [1116352408, 1899447441, 3049323471, 3921009573, 961987163, 1508970993,
   2453635748, 2870763221, 3624381080, 310598401, 607225278, 1426881987,
   1925078388, 2162078206, 2614888103, 3248222580, 3835390401, 4022224774,
   264347078, 604807628, 770255983, 1249150122, 1555081692, 1996064986,
   2554220882, 2821834349, 2952996808, 3210313671, 3336571891, 3584528711,
   113926993, 338241895, 666307205, 773529912, 1294757372, 1396182291,
   1695183700, 1986661051, 2177026350, 2456956037, 2730485921, 2820302411,
   3259730800, 3345764771, 3516065817, 3600352804, 4094571909, 275423344,
   430227734, 506948616, 659060556, 883997877, 958139571, 1322822218,
   1537002063, 1747873779, 1955562222, 2024104815, 2227730452, 2361852424,
   2428436474, 2756734187, 3204031479, 3329325298]

/-- Group a 64-byte block into sixteen big-endian 32-bit words. -/
def msgWords16 : List Nat → List Nat
  | b0 :: b1 :: b2 :: b3 :: rest => (((b0 * 256 + b1) * 256 + b2) * 256 + b3) :: msgWords16 rest
  | _ => []

/-- Extend the sixteen message words with `n` further schedule words. -/
def extendWords : Nat → List Nat → List Nat
  | 0, ws => ws
  | n + 1, ws =>
      let t := ws.length
      extendWords n
        (ws ++ [wadd (wadd (ssig1 (ws.getD (t - 2) 0)) (ws.getD (t - 7) 0))
                     (wadd (ssig0 (ws.getD (t - 15) 0)) (ws.getD (t - 16) 0))])

/-- Working variables of one compression round. -/
structure RoundState where
  a : Nat
  b : Nat
  c : Nat
  d : Nat
  e : Nat
  f : Nat
  g : Nat
  h : Nat
deriving Repr, DecidableEq

/-- One SHA-256 compression round with round constant and schedule word `kw`. -/
def roundStep (st : RoundState) (kw : Nat × Nat) : RoundState :=
  let t1 := wadd (wadd (wadd st.h (bsig1 st.e)) (wadd (ch st.e st.f st.g) kw.1)) kw.2
  let t2 := wadd (bsig0 st.a) (maj st.a st.b st.c)
  ⟨wadd t1 t2, st.a, st.b, st.c, wadd st.d t1, st.e, st.f, st.g⟩

/-- Compress one 64-byte block into the chaining state. -/
def compressBlock (st : Sha2State) (block : List Nat) : Sha2State :=
  let ws := extendWords 48 (msgWords16 block)
  let r := (shaK.zip ws).foldl roundStep ⟨st.h0, st.h1, st.h2, st.h3, st.h4, st.h5, st.h6, st.h7⟩
  ⟨wadd st.h0 r.a, wadd st.h1 r.b, wadd st.h2 r.c, wadd st.h3 r.d,
   wadd st.h4 r.e, wadd st.h5 r.f, wadd st.h6 r.g, wadd st.h7 r.h⟩

/-- The 64-bit big-endian byte serialization of a message bit length. -/
def be64 (n : Nat) : List Nat :=
  [n / 72057594037927936 % 256, n / 281474976710656 % 256, n / 1099511627776 % 256,
   n / 4294967296 % 256, n / 16777216 % 256, n / 65536 % 256, n / 256 % 256, n % 256]

/-- SHA-256 padding: append `0x80`, zeros to 56 mod 64, then the bit length. -/
def padMsg (msg : List Nat) : List Nat :=
  let len := msg.length
  let zeros := (120 - (len + 1) % 64) % 64
  msg ++ [128] ++ List.replicate zeros 0 ++ be64 (len * 8)

/-- Split a padded message into 64-byte blocks (`fuel` bounds the recursion). -/
def toBlocksF : Nat → List Nat → List (List Nat)
  | 0, _ => []
  | _, [] => []
  | n + 1, l => l.take 64 :: toBlocksF n (l.drop 64)

/-- Big-endian byte serialization of one 32-bit word. -/
def wordBytes (w : Nat) : List Nat :=
  [w / 16777216 % 256, w / 65536 % 256, w / 256 % 256, w % 256]

/-- Serialize the chaining state into the 32-byte digest. -/
def stateBytes (st : Sha2State) : List Nat :=
  wordBytes st.h0 ++ wordBytes st.h1 ++ wordBytes st.h2 ++ wordBytes st.h3 ++
  wordBytes st.h4 ++ wordBytes st.h5 ++ wordBytes st.h6 ++ wordBytes st.h7

/-- SHA-256 of a byte list. -/
def sha256 (msg : List Nat) : List Nat :=
  let padded := padMsg msg
  stateBytes ((toBlocksF (padded.length + 64) padded).foldl compressBlock shaIV)

/-- UTF-8 encoding of one character. -/
def utf8Bytes (c : Char) : List Nat :=
  let n := c.toNat
  if n < 128 then [n]
  else if n < 2048 then [192 + n / 64, 128 + n % 64]
  else if n < 65536 then [224 + n / 4096, 128 + n / 64 % 64, 128 + n % 64]
  else [240 + n / 262144, 128 + n / 4096 % 64, 128 + n / 64 % 64, 128 + n % 64]

/-- UTF-8 bytes of a string (Python `str.encode()`). -/
def strBytes (s : String) : List Nat := (s.data.map utf8Bytes).flatten

/-- One lowercase hexadecimal digit. -/
def hexDigit (n : Nat) : Char := if n < 10 then Char.ofNat (48 + n) else Char.ofNat (87 + n)

/-- Two lowercase hexadecimal digits of a byte. -/
def byteToHex (b : Nat) : List Char := [hexDigit (b / 16), hexDigit (b % 16)]

/-- `_hash` from the service: SHA-256 of the UTF-8 bytes, lowercase hex. -/
def sha256hex (s : String) : String := String.mk ((sha256 (strBytes s)).map byteToHex).flatten

/-- One character of the base64url alphabet. -/
def b64Char (n : Nat) : Char :=
  if n < 26 then Char.ofNat (65 + n)
  else if n < 52 then Char.ofNat (97 + n - 26)
  else if n < 62 then Char.ofNat (48 + n - 52)
  else if n = 62 then Char.ofNat 45
  else Char.ofNat 95

/-- Base64url encoding without padding (`base64.urlsafe_b64encode(...).rstrip(b"=")`). -/
def b64urlNoPad : List Nat → List Char
  | [] => []
  | [b0] => [b64Char (b0 / 4), b64Char (b0 % 4 * 16)]
  | [b0, b1] => [b64Char (b0 / 4), b64Char (b0 % 4 * 16 + b1 / 16), b64Char (b1 % 16 * 4)]
  | b0 :: b1 :: b2 :: rest =>
      b64Char (b0 / 4) :: b64Char (b0 % 4 * 16 + b1 / 16) ::
      b64Char (b1 % 16 * 4 + b2 / 64) :: b64Char (b2 % 64) :: b64urlNoPad rest

/-- `_verify_pkce_s256` from the service: base64url(SHA-256(verifier)) without
padding compared with the stored challenge. -/
def verify_pkce_s256 (code_verifier code_challenge : String) : Bool :=
  String.mk (b64urlNoPad (sha256 (strBytes code_verifier))) == code_challenge

/-! ## Data model (`app/models/oauth_server.py`)

Timestamps are `Nat` seconds; `deleted_at : Option Nat` is the soft-delete
tombstone (NULL modelled by `none`). -/

/-- A registered OAuth client row (`oauth_mcp_clients`).  The `redirect_uris`
column holds a JSON array of strings; it is modelled by the decoded list. -/
structure OAuthMCPClient where
  id : String
  organization_id : String
  client_id : String
  client_secret_hash : String
  name : String
  redirect_uris : List String
  scopes : String
  deleted_at : Option Nat
deriving Repr, DecidableEq

/-- An authorization-code row (`oauth_mcp_authorization_codes`). -/
structure OAuthMCPAuthorizationCode where
  code : String
  client_id : String
  user_id : String
  organization_id : String
  redirect_uri : String
  scope : String
  code_challenge : String
  expires_at : Nat
  deleted_at : Option Nat
deriving Repr, DecidableEq

/-- An access-token row (`oauth_mcp_access_tokens`). -/
structure OAuthMCPAccessToken where
  token_hash : String
  client_id : String
  user_id : String
  organization_id : String
  scope : String
  expires_at : Nat
  refresh_token_hash : Option String
  refresh_expires_at : Option Nat
  deleted_at : Option Nat
deriving Repr, DecidableEq

/-- The durable store: the three OAuth tables, plus the id sets of the
external `users` and `organizations` tables (only existence is consulted). -/
structure DB where
  clients : List OAuthMCPClient
  codes : List OAuthMCPAuthorizationCode
  tokens : List OAuthMCPAccessToken
  users : List String
  organizations : List String
deriving Repr, DecidableEq

/-! ## Service constants and helpers (`oauth_server_service.py`) -/

/-- `ACCESS_TOKEN_PREFIX` of the service (the string `bow_oauth_`). -/
def ACCESS_TOKEN_KIND : String := "bow_oauth_"

/-- `REFRESH_TOKEN_PREFIX` of the service (the string `bow_rt_`). -/
def REFRESH_TOKEN_KIND : String := "bow_rt_"

/-- `ACCESS_TOKEN_LIFETIME` in seconds (1 hour). -/
def ACCESS_TOKEN_LIFETIME : Nat := 3600

/-- `REFRESH_TOKEN_LIFETIME` in seconds (30 days). -/
def REFRESH_TOKEN_LIFETIME : Nat := 2592000

/-- `AUTHORIZATION_CODE_LIFETIME` in seconds (5 minutes). -/
def AUTHORIZATION_CODE_LIFETIME : Nat := 300

/-- `CLAUDE_REDIRECT_URIS`, the default redirect-URI allowlist. -/
def CLAUDE_REDIRECT_URIS : List String :=
  ["https://claude.ai/api/mcp/auth_callback",
   "https://claude.com/api/mcp/auth_callback",
   "http://localhost:6274/oauth/callback",
   "http://localhost:6274/oauth/callback/debug"]

/-- `str.startswith` on the character level (all credentials are ASCII). -/
def strHasStart (s pre : String) : Bool := s.data.take pre.data.length == pre.data

/-- Python slicing `s[n:]` on the character level. -/
def strDropChars (s : String) (n : Nat) : String := String.mk (s.data.drop n)

/-- `_generate_token`: prepend the kind to the fresh random material `raw`
(drawn by `secrets.token_urlsafe(32)`, here a parameter) and pair the
plaintext with its SHA-256 hex hash. -/
def generate_token (kind raw : String) : String × String :=
  let full := kind ++ raw
  (full, sha256hex full)

/-- Replace the first list entry satisfying `p` by its image under `f`
(the ORM mutates the single row returned by the query in place). -/
def updateFirst (p : α → Bool) (f : α → α) : List α → List α
  | [] => []
  | x :: xs => if p x then f x :: xs else x :: updateFirst p f xs

/-! ## Client registry operations -/

/-- `create_client`: default the redirect list to `CLAUDE_REDIRECT_URIS` when
absent, build the row with a hashed secret, insert it.  `newId`, `rawClientId`
and `rawSecret` stand for the generated row id and the two random suffixes.
Returns the stored row (whose plaintext secret is `"bow_secret_" ++ rawSecret`,
returned once by the route) together with the updated store. -/
def create_client (db : DB) (organization_id name : String)
    (redirect_uris : Option (List String)) (newId rawClientId rawSecret : String) :
    OAuthMCPClient × DB :=
  let uris := match redirect_uris with
    | none => CLAUDE_REDIRECT_URIS
    | some u => u
  let client_secret := "bow_secret_" ++ rawSecret
  let client : OAuthMCPClient :=
    { id := newId
      organization_id := organization_id
      client_id := "bow_client_" ++ rawClientId
      client_secret_hash := sha256hex client_secret
      name := name
      redirect_uris := uris
      scopes := "mcp"
      deleted_at := none }
  (client, { db with clients := db.clients ++ [client] })

/-- `validate_client`: the live row with this `client_id`, and when a secret is
supplied its SHA-256 hex must equal the stored hash. -/
def validate_client (db : DB) (client_id : String) (client_secret : Option String) :
    Option OAuthMCPClient :=
  match db.clients.find? (fun c => c.client_id == client_id && c.deleted_at == none) with
  | none => none
  | some client =>
    match client_secret with
    | none => some client
    | some secret =>
      if sha256hex secret != client.client_secret_hash then none else some client

/-- `validate_redirect_uri`: exact membership in the stored list. -/
def validate_redirect_uri (client : OAuthMCPClient) (redirect_uri : String) : Bool :=
  client.redirect_uris.contains redirect_uri

/-! ## Authorization-code flow -/

/-- Set `deleted_at = now` on a code row (the ORM-side tombstone statement). -/
def tombCode (now : Nat) (r : OAuthMCPAuthorizationCode) : OAuthMCPAuthorizationCode :=
  { r with deleted_at := some now }

/-- Set `deleted_at = now` on a token row (the ORM-side tombstone statement). -/
def tombToken (now : Nat) (r : OAuthMCPAccessToken) : OAuthMCPAccessToken :=
  { r with deleted_at := some now }

/-- The `WHERE` clause of the code lookup in `exchange_code`: live row whose
`code` and `client_id` match the request. -/
def codeLookupQ (code client_id : String) (r : OAuthMCPAuthorizationCode) : Bool :=
  r.code == code && r.client_id == client_id && r.deleted_at == none

/-- `create_authorization_code`: insert a fresh row expiring five minutes from
now; `rawCode` stands for the generated `secrets.token_urlsafe(32)` value. -/
def create_authorization_code (db : DB) (now : Nat)
    (client_id user_id organization_id redirect_uri scope code_challenge rawCode : String) :
    String × DB :=
  let row : OAuthMCPAuthorizationCode :=
    { code := rawCode
      client_id := client_id
      user_id := user_id
      organization_id := organization_id
      redirect_uri := redirect_uri
      scope := scope
      code_challenge := code_challenge
      expires_at := now + AUTHORIZATION_CODE_LIFETIME
      deleted_at := none }
  (rawCode, { db with codes := db.codes ++ [row] })

/-- The token response dict returned by `exchange_code` / `refresh_access_token`. -/
structure TokenResponse where
  access_token : String
  token_type : String
  expires_in : Nat
  refresh_token : String
  scope : String
deriving Repr, DecidableEq

/-- `exchange_code`: validate the client, look up the live code row bound to
the client, tombstone-and-fail on expiry (`expires_at < now`), check PKCE and
the redirect URI, then consume the code, mint access and refresh tokens
(random material `rawAccess`, `rawRefresh`) and persist the token row.
Returns the optional token response and the updated store. -/
def exchange_code (db : DB) (now : Nat) (code client_id : String)
    (client_secret : Option String) (code_verifier redirect_uri : String)
    (rawAccess rawRefresh : String) : Option TokenResponse × DB :=
  match validate_client db client_id client_secret with
  | none => (none, db)
  | some _client =>
    match db.codes.find? (codeLookupQ code client_id) with
    | none => (none, db)
    | some auth_code =>
      if auth_code.expires_at < now then
        (none, { db with codes := updateFirst (codeLookupQ code client_id) (tombCode now) db.codes })
      else if !verify_pkce_s256 code_verifier auth_code.code_challenge then
        (none, db)
      else if auth_code.redirect_uri != redirect_uri then
        (none, db)
      else
        let access := generate_token ACCESS_TOKEN_KIND rawAccess
        let refresh := generate_token REFRESH_TOKEN_KIND rawRefresh
        let token_record : OAuthMCPAccessToken :=
          { token_hash := access.2
            client_id := client_id
            user_id := auth_code.user_id
            organization_id := auth_code.organization_id
            scope := auth_code.scope
            expires_at := now + ACCESS_TOKEN_LIFETIME
            refresh_token_hash := some refresh.2
            refresh_expires_at := some (now + REFRESH_TOKEN_LIFETIME)
            deleted_at := none }
        (some { access_token := access.1
                token_type := "Bearer"
                expires_in := ACCESS_TOKEN_LIFETIME
                refresh_token := refresh.1
                scope := auth_code.scope },
         { db with
             codes := updateFirst (codeLookupQ code client_id) (tombCode now) db.codes
             tokens := db.tokens ++ [token_record] })

/-- The `WHERE` clause of the token lookup in `refresh_access_token`: live row
whose `refresh_token_hash` and `client_id` match. -/
def refreshLookupQ (refresh_hash client_id : String) (r : OAuthMCPAccessToken) : Bool :=
  r.refresh_token_hash == some refresh_hash && r.client_id == client_id && r.deleted_at == none

/-- The rotation tail of `refresh_access_token`: tombstone the matched row
(the first live row with this refresh hash and client), mint and persist the
new token pair carrying the old row's user, organization and scope. -/
def refreshRotate (db : DB) (now : Nat) (refresh_hash client_id : String)
    (token_record : OAuthMCPAccessToken) (rawAccess rawRefresh : String) :
    Option TokenResponse × DB :=
  let access := generate_token ACCESS_TOKEN_KIND rawAccess
  let refresh := generate_token REFRESH_TOKEN_KIND rawRefresh
  let new_record : OAuthMCPAccessToken :=
    { token_hash := access.2
      client_id := client_id
      user_id := token_record.user_id
      organization_id := token_record.organization_id
      scope := token_record.scope
      expires_at := now + ACCESS_TOKEN_LIFETIME
      refresh_token_hash := some refresh.2
      refresh_expires_at := some (now + REFRESH_TOKEN_LIFETIME)
      deleted_at := none }
  (some { access_token := access.1
          token_type := "Bearer"
          expires_in := ACCESS_TOKEN_LIFETIME
          refresh_token := refresh.1
          scope := token_record.scope },
   { db with
       tokens := updateFirst (refreshLookupQ refresh_hash client_id) (tombToken now) db.tokens ++ [new_record] })

/-- `refresh_access_token`: validate the client, find the live row by refresh
hash and client, reject an expired refresh token, tombstone the old row and
insert a fresh one carrying the same user, organization and scope. -/
def refresh_access_token (db : DB) (now : Nat) (refresh_token client_id : String)
    (client_secret : Option String) (rawAccess rawRefresh : String) :
    Option TokenResponse × DB :=
  match validate_client db client_id client_secret with
  | none => (none, db)
  | some _client =>
    match db.tokens.find? (refreshLookupQ (sha256hex refresh_token) client_id) with
    | none => (none, db)
    | some token_record =>
      match token_record.refresh_expires_at with
      | some t =>
        if t < now then (none, db)
        else refreshRotate db now (sha256hex refresh_token) client_id token_record
               rawAccess rawRefresh
      | none => refreshRotate db now (sha256hex refresh_token) client_id token_record
                  rawAccess rawRefresh

/-! ## Bearer validation -/

/-- `validate_access_token`: prefix gate, hash lookup of a live row, expiry
check, then both the referenced user and organization must exist. -/
def validate_access_token (db : DB) (now : Nat) (token : String) :
    Option (String × String) :=
  if !strHasStart token ACCESS_TOKEN_KIND then none
  else
    let token_hash := sha256hex token
    match db.tokens.find? (fun r => r.token_hash == token_hash && r.deleted_at == none) with
    | none => none
    | some token_record =>
      if token_record.expires_at < now then none
      else if !db.users.contains token_record.user_id then none
      else if !db.organizations.contains token_record.organization_id then none
      else some (token_record.user_id, token_record.organization_id)

/-! ## Token endpoint (`app/routes/oauth_server.py`, `token_endpoint`) -/

/-- The form-encoded body of `POST /api/oauth/token`. -/
structure TokenForm where
  grant_type : String
  code : Option String
  redirect_uri : Option String
  client_id : String
  client_secret : Option String
  code_verifier : Option String
  refresh_token : Option String
deriving Repr, DecidableEq

/-- Python falsiness of an optional form string (`None` or the empty string). -/
def falsyOpt (o : Option String) : Bool :=
  match o with
  | none => true
  | some s => s == ""

/-- A JSON body returned by the token endpoint: either the RFC 6749 success
shape or an HTTP status with an `error` code. -/
inductive EndpointResult where
  | ok (resp : TokenResponse)
  | err (status : Nat) (error : String)
deriving Repr, DecidableEq

/-- `token_endpoint`: dispatch on `grant_type`, check required fields, delegate
to the service, and map a `None` service result to a generic 400
`invalid_grant`. -/
def token_endpoint (db : DB) (now : Nat) (form : TokenForm)
    (rawAccess rawRefresh : String) : EndpointResult × DB :=
  if form.grant_type == "authorization_code" then
    if falsyOpt form.code || falsyOpt form.code_verifier || falsyOpt form.redirect_uri then
      (.err 400 "invalid_request", db)
    else
      let r := exchange_code db now (form.code.getD "") form.client_id form.client_secret
                 (form.code_verifier.getD "") (form.redirect_uri.getD "") rawAccess rawRefresh
      match r.1 with
      | some resp => (.ok resp, r.2)
      | none => (.err 400 "invalid_grant", r.2)
  else if form.grant_type == "refresh_token" then
    if falsyOpt form.refresh_token then
      (.err 400 "invalid_request", db)
    else
      let r := refresh_access_token db now (form.refresh_token.getD "") form.client_id
                 form.client_secret rawAccess rawRefresh
      match r.1 with
      | some resp => (.ok resp, r.2)
      | none => (.err 400 "invalid_grant", r.2)
  else
    (.err 400 "unsupported_grant_type", db)

/-! ## MCP auth dispatcher (`app/routes/mcp.py`, `mcp_auth`) -/

/-- The authentication-relevant view of one MCP request.  `jwt_user` is the
user resolved by the session/JWT dependency (`None` when absent or invalid);
`session_org` is the outcome of `get_current_organization` (`None` models the
`HTTPException` it raises); `api_key` is the `X-API-Key` header and
`authorization` the raw `Authorization` header. -/
structure McpRequest where
  jwt_user : Option String
  session_org : Option String
  api_key : Option String
  authorization : Option String
deriving Repr, DecidableEq

/-- The external `ApiKeyService` collaborators, as resolution oracles. -/
structure ApiKeyService where
  get_user_by_api_key : String → Option String
  get_organization_by_api_key : String → Option String

/-- Outcome of `mcp_auth`: an authenticated `(user, organization)` pair, or
the 401 `HTTPException` with the `WWW-Authenticate` header. -/
inductive McpAuthResult where
  | ok (user org : String)
  | http401
deriving Repr, DecidableEq

/-- The `Authorization: Bearer <token>` extraction of step 3. -/
def bearerToken (req : McpRequest) : Option String :=
  match req.authorization with
  | none => none
  | some h => if strHasStart h "Bearer " then some (strDropChars h 7) else none

/-- Step 3 of the dispatcher: OAuth access token when the bearer starts with
`bow_oauth_`, API key when it starts with `bow_` but not `bow_oauth_`,
otherwise the 401 failure. -/
def mcp_auth_bearer (db : DB) (now : Nat) (svc : ApiKeyService) (req : McpRequest) :
    McpAuthResult :=
  match bearerToken req with
  | none => .http401
  | some token =>
    let viaOAuth : Option (String × String) :=
      if strHasStart token "bow_oauth_" then validate_access_token db now token else none
    match viaOAuth with
    | some (u, o) => .ok u o
    | none =>
      if strHasStart token "bow_" && !strHasStart token "bow_oauth_" then
        match svc.get_user_by_api_key token with
        | none => .http401
        | some u =>
          match svc.get_organization_by_api_key token with
          | none => .http401
          | some o => .ok u o
      else .http401

/-- Step 2 of the dispatcher: an `X-API-Key` header starting with `bow_` but
not `bow_oauth_` is resolved via the API-key service; any miss falls through
to the Bearer step. -/
def mcp_auth_apikey (db : DB) (now : Nat) (svc : ApiKeyService) (req : McpRequest) :
    McpAuthResult :=
  match req.api_key with
  | none => mcp_auth_bearer db now svc req
  | some k =>
    if strHasStart k "bow_" && !strHasStart k "bow_oauth_" then
      match svc.get_user_by_api_key k with
      | none => mcp_auth_bearer db now svc req
      | some u =>
        match svc.get_organization_by_api_key k with
        | none => mcp_auth_bearer db now svc req
        | some o => .ok u o
    else mcp_auth_bearer db now svc req

/-- `mcp_auth`: session first (an org-selection failure is caught and the
dispatcher falls through), then the API-key header, then the Bearer header. -/
def mcp_auth (db : DB) (now : Nat) (svc : ApiKeyService) (req : McpRequest) :
    McpAuthResult :=
  match req.jwt_user with
  | none => mcp_auth_apikey db now svc req
  | some u =>
    match req.session_org with
    | some o => .ok u o
    | none => mcp_auth_apikey db now svc req

/-! ## MCP JSON-RPC gateway (`app/routes/mcp.py`, `mcp_endpoint`) -/

/-- A JSON value (ids, params, tool arguments and tool results). -/
inductive Json where
  | null
  | bool (b : Bool)
  | num (n : Int)
  | str (s : String)
  | arr (xs : List Json)
  | obj (fields : List (String × Json))

/-- Escaping of one character inside a JSON string literal. -/
def escChar (c : Char) : List Char :=
  if c = Char.ofNat 34 then [Char.ofNat 92, Char.ofNat 34]
  else if c = Char.ofNat 92 then [Char.ofNat 92, Char.ofNat 92]
  else [c]

mutual

/-- `json.dumps` (for the values arising here: quote and backslash escaping). -/
def Json.dumps : Json → String
  | .null => "null"
  | .bool true => "true"
  | .bool false => "false"
  | .num n => toString n
  | .str s => "\"" ++ String.mk (s.data.map escChar).flatten ++ "\""
  | .arr xs => "[" ++ String.intercalate ", " (dumpsList xs) ++ "]"
  | .obj fs => "\x7b" ++ String.intercalate ", " (dumpsFields fs) ++ "\x7d"

/-- Serialization of the elements of a JSON array. -/
def dumpsList : List Json → List String
  | [] => []
  | x :: xs => Json.dumps x :: dumpsList xs

/-- Serialization of the fields of a JSON object. -/
def dumpsFields : List (String × Json) → List String
  | [] => []
  | (k, v) :: fs => ("\"" ++ k ++ "\": " ++ Json.dumps v) :: dumpsFields fs

end

/-- The parsed `tools/call` parameters: the `name` and `arguments` entries of
the `params` dict (`None` for an absent key). -/
structure ToolCallParams where
  name : Option String
  arguments : Option Json

/-- A parsed JSON-RPC request past the pydantic model. -/
structure JsonRpcRequest where
  jsonrpc : String
  id : Option Json
  method : String
  params : Option ToolCallParams

/-- One tool's registry entry: name, description and input schema. -/
structure ToolInfo where
  name : String
  description : String
  input_schema : Json

/-- The external MCP tool registry; `get_mcp_tool` yields the tool's
`execute(arguments, db, user, org)`, whose outcome is a result value or a
raised exception message. -/
structure ToolRegistry where
  list_mcp_tools : List ToolInfo
  get_mcp_tool : String → Option (Json → String → String → Except String Json)

/-- A JSON-RPC reply envelope: a *successful* response carrying `result`, or a
JSON-RPC error object. -/
inductive JsonRpcOut where
  | response (id : Option Json) (result : Json)
  | error (id : Option Json) (code : Int) (message : String)

/-- `jsonrpc_response` from the route. -/
def jsonrpc_response (id : Option Json) (result : Json) : JsonRpcOut := .response id result

/-- `jsonrpc_error` from the route. -/
def jsonrpc_error (id : Option Json) (code : Int) (message : String) : JsonRpcOut :=
  .error id code message

/-- The `{content: [{type: "text", text: ...}], isError: ...}` envelope built
by the `tools/call` branch. -/
def toolCallEnvelope (text : String) (isErr : Bool) : Json :=
  .obj [("content", .arr [.obj [("type", .str "text"), ("text", .str text)]]),
        ("isError", .bool isErr)]

/-- The method dispatch of `mcp_endpoint` after auth, feature-flag check and
body parsing (`user`/`org` are the authenticated pair). -/
def mcp_handle (reg : ToolRegistry) (user org : String) (req : JsonRpcRequest) : JsonRpcOut :=
  if req.method == "initialize" then
    jsonrpc_response req.id (.obj
      [("protocolVersion", .str "2025-06-18"),
       ("serverInfo", .obj [("name", .str "bagofwords"), ("version", .str "1.0.0")]),
       ("capabilities", .obj [("tools", .obj [])])])
  else if req.method == "tools/list" then
    jsonrpc_response req.id (.obj
      [("tools", .arr (reg.list_mcp_tools.map fun t =>
          .obj [("name", .str t.name), ("description", .str t.description),
                ("inputSchema", t.input_schema)]))])
  else if req.method == "tools/call" then
    let tool_name := (req.params.bind (fun p => p.name)).getD ""
    if tool_name == "" then jsonrpc_error req.id (-32602) "Missing tool name"
    else
      match reg.get_mcp_tool tool_name with
      | none => jsonrpc_error req.id (-32602) ("Unknown tool: " ++ tool_name)
      | some execute =>
        let arguments := (req.params.bind (fun p => p.arguments)).getD (.obj [])
        match execute arguments user org with
        | .ok result => jsonrpc_response req.id (toolCallEnvelope (Json.dumps result) false)
        | .error e => jsonrpc_response req.id (toolCallEnvelope e true)
  else
    jsonrpc_error req.id (-32601) ("Method not found: " ++ req.method)

/-! ## Helper lemmas -/

theorem updateFirst_mem_of_find? {α} (p : α → Bool) (f : α → α) :
    ∀ (l : List α) (a : α), l.find? p = some a → f a ∈ updateFirst p f l := by
  intro l
  induction l with
  | nil => intro a h; simp [List.find?] at h
  | cons x xs ih =>
    intro a h
    by_cases hx : p x = true
    · rw [List.find?_cons_of_pos _ hx] at h
      cases h
      simp [updateFirst, hx]
    · rw [List.find?_cons_of_neg _ hx] at h
      simp [updateFirst, hx]
      exact Or.inr (ih a h)

theorem updateFirst_all_eq {α} (Q : α → Bool) (f : α → α) (key : α → String) (k : String)
    (hQ : ∀ r, Q r = true → key r = k) :
    ∀ (l : List α) (a : α), l.Pairwise (fun r s => key r ≠ key s) →
      l.find? Q = some a →
      ∀ r ∈ updateFirst Q f l, key r = k → r = f a := by
  intro l
  induction l with
  | nil => intro a _ h; simp [List.find?] at h
  | cons x xs ih =>
    intro a hp hf r hr hkey
    rw [List.pairwise_cons] at hp
    by_cases hx : Q x = true
    · rw [List.find?_cons_of_pos _ hx] at hf
      cases hf
      simp [updateFirst, hx] at hr
      rcases hr with rfl | hr
      · rfl
      · exact absurd (hQ x hx ▸ hkey.symm) (hp.1 r hr)
    · rw [List.find?_cons_of_neg _ hx] at hf
      simp [updateFirst, hx] at hr
      rcases hr with rfl | hr
      · have ha : a ∈ xs := List.mem_of_find?_eq_some hf
        have hQa : Q a = true := List.find?_some hf
        exact absurd (hkey.trans (hQ a hQa).symm) (hp.1 a ha)
      · exact ih a hp.2 hf r hr hkey

theorem codeLookupQ_code {code cid : String} {r : OAuthMCPAuthorizationCode}
    (h : codeLookupQ code cid r = true) : r.code = code := by
  simp [codeLookupQ] at h
  exact h.1.1

theorem codeLookupQ_false_of_deleted {code cid : String} {r : OAuthMCPAuthorizationCode}
    (h : r.deleted_at ≠ none) : codeLookupQ code cid r = false := by
  simp [codeLookupQ, h]

/-- Success characterization of `exchange_code`: a token response is returned
exactly when the client validates, a live code row bound to the client is
found, it is unexpired (`¬ expires_at < now`), PKCE passes and the stored
redirect URI equals the request's. -/
theorem exchange_code_isSome_iff (db : DB) (now : Nat) (code cid : String)
    (cs : Option String) (cv ru ra rr : String) :
    (exchange_code db now code cid cs cv ru ra rr).1.isSome = true ↔
      (validate_client db cid cs).isSome = true ∧
      ∃ ac, db.codes.find? (codeLookupQ code cid) = some ac ∧
        ¬ ac.expires_at < now ∧ verify_pkce_s256 cv ac.code_challenge = true ∧
        ac.redirect_uri = ru := by
  unfold exchange_code
  cases hv : validate_client db cid cs with
  | none => simp
  | some c =>
    simp only [Option.isSome_some, true_and]
    cases hf : db.codes.find? (codeLookupQ code cid) with
    | none => simp
    | some ac =>
      by_cases hexp : ac.expires_at < now
      · simp [hexp]
      · by_cases hpk : verify_pkce_s256 cv ac.code_challenge = true
        · by_cases hru : ac.redirect_uri = ru
          · simp [hexp, hpk, hru]
            omega
          · simp [hexp, hpk, hru]
        · simp [hexp, hpk]

/-- The store after a successful `exchange_code`: the matched code row is
tombstoned in place and the fresh token row is appended. -/
theorem exchange_code_state_of_isSome (db : DB) (now : Nat) (code cid : String)
    (cs : Option String) (cv ru ra rr : String)
    (h : (exchange_code db now code cid cs cv ru ra rr).1.isSome = true) :
    (exchange_code db now code cid cs cv ru ra rr).2.codes =
      updateFirst (codeLookupQ code cid) (tombCode now) db.codes := by
  obtain ⟨hv, ac, hf, hexp, hpk, hru⟩ :=
    (exchange_code_isSome_iff db now code cid cs cv ru ra rr).mp h
  obtain ⟨c, hc⟩ := Option.isSome_iff_exists.mp hv
  unfold exchange_code
  rw [hc, hf]
  simp [hexp, hpk, hru]

/-- When no live row matches the code lookup, `exchange_code` fails. -/
theorem exchange_code_none_of_find?_none (db : DB) (now : Nat) (code cid : String)
    (cs : Option String) (cv ru ra rr : String)
    (h : db.codes.find? (codeLookupQ code cid) = none) :
    (exchange_code db now code cid cs cv ru ra rr).1 = none := by
  unfold exchange_code
  cases hv : validate_client db cid cs with
  | none => rfl
  | some c => rw [h]

/-- The expired branch of `exchange_code`: fail and tombstone the matched row. -/
theorem exchange_code_expired_state (db : DB) (now : Nat) (code cid : String)
    (cs : Option String) (cv ru ra rr : String) (c : OAuthMCPClient)
    (ac : OAuthMCPAuthorizationCode)
    (hv : validate_client db cid cs = some c)
    (hf : db.codes.find? (codeLookupQ code cid) = some ac)
    (hexp : ac.expires_at < now) :
    exchange_code db now code cid cs cv ru ra rr =
      (none, { db with codes := updateFirst (codeLookupQ code cid) (tombCode now) db.codes }) := by
  unfold exchange_code
  rw [hv, hf]
  simp [hexp]

/-! ## Concrete witness data -/

/-- The golden PKCE verifier from RFC 7636 Appendix B. -/
def goldenVerifier : String := "dBjftJeZ4CVP-mB92K27uhbUJU1p1r_wW1gFWFOEjXk"

/-- The golden PKCE challenge from RFC 7636 Appendix B. -/
def goldenChallenge : String := "E9Melhoa2OwvFrEMTJguCHaoeK1t8URWbuGJSstw-cM"

/-- A live registered client. -/
def wClient : OAuthMCPClient :=
  { id := "id1"
    organization_id := "org1"
    client_id := "bow_client_c1"
    client_secret_hash := sha256hex "bow_secret_s1"
    name := "Claude Web"
    redirect_uris := CLAUDE_REDIRECT_URIS
    scopes := "mcp"
    deleted_at := none }

/-- A live authorization code bound to `wClient`, expiring at `t = 300`. -/
def wCode : OAuthMCPAuthorizationCode :=
  { code := "code1"
    client_id := "bow_client_c1"
    user_id := "u1"
    organization_id := "org1"
    redirect_uri := "https://claude.ai/api/mcp/auth_callback"
    scope := "mcp"
    code_challenge := goldenChallenge
    expires_at := 300
    deleted_at := none }

/-- A store holding `wClient` and `wCode`. -/
def wDB : DB :=
  { clients := [wClient]
    codes := [wCode]
    tokens := []
    users := ["u1"]
    organizations := ["org1"] }

/-! ## Claims -/

/-- C1: at most one `exchange_code` call succeeds per authorization code.  A
successful exchange leaves every row carrying that code tombstoned
(`deleted_at` set to the exchange time), and any subsequent exchange of the
same code — whatever client credentials, verifier, redirect URI or time it
presents — finds no live record and fails with the generic `invalid_grant`
(`None` from the service).  The hypothesis is the `code` unique index of the
`oauth_mcp_authorization_codes` table. -/
theorem claim_exchange_code_single_use (db : DB) (now : Nat) (code cid : String)
    (cs : Option String) (cv ru ra rr : String)
    (huniq : db.codes.Pairwise (fun r s => r.code ≠ s.code))
    (hsucc : (exchange_code db now code cid cs cv ru ra rr).1.isSome = true) :
    (∀ r ∈ (exchange_code db now code cid cs cv ru ra rr).2.codes,
        r.code = code → r.deleted_at = some now) ∧
    (∀ (now2 : Nat) (cid2 : String) (cs2 : Option String) (cv2 ru2 ra2 rr2 : String),
        (exchange_code (exchange_code db now code cid cs cv ru ra rr).2
            now2 code cid2 cs2 cv2 ru2 ra2 rr2).1 = none) := by
  obtain ⟨hv, ac, hf, hexp, hpk, hru⟩ :=
    (exchange_code_isSome_iff db now code cid cs cv ru ra rr).mp hsucc
  have hstate := exchange_code_state_of_isSome db now code cid cs cv ru ra rr hsucc
  have key : ∀ r ∈ (exchange_code db now code cid cs cv ru ra rr).2.codes,
      r.code = code → r = tombCode now ac := by
    rw [hstate]
    exact updateFirst_all_eq (codeLookupQ code cid) (tombCode now)
      (fun r => r.code) code (fun r h => codeLookupQ_code h) db.codes ac huniq hf
  refine ⟨fun r hr hc => by rw [key r hr hc]; rfl, ?_⟩
  intro now2 cid2 cs2 cv2 ru2 ra2 rr2
  apply exchange_code_none_of_find?_none
  rw [List.find?_eq_none]
  intro x hx hQx
  have hxcode : x.code = code := codeLookupQ_code hQx
  have hxtomb := key x hx hxcode
  rw [codeLookupQ_false_of_deleted (by rw [hxtomb]; simp [tombCode])] at hQx
  exact Bool.false_ne_true hQx

/-- C1 witness: in the one-client one-code store, the exchange at `t = 100`
with the golden verifier succeeds, and the theorem's conclusions hold. -/
theorem claim_exchange_code_single_use_witness :
    (∀ r ∈ (exchange_code wDB 100 "code1" "bow_client_c1" none goldenVerifier
        "https://claude.ai/api/mcp/auth_callback" "ra" "rr").2.codes,
        r.code = "code1" → r.deleted_at = some 100) ∧
    (∀ (now2 : Nat) (cid2 : String) (cs2 : Option String) (cv2 ru2 ra2 rr2 : String),
        (exchange_code (exchange_code wDB 100 "code1" "bow_client_c1" none goldenVerifier
            "https://claude.ai/api/mcp/auth_callback" "ra" "rr").2
            now2 "code1" cid2 cs2 cv2 ru2 ra2 rr2).1 = none) :=
  claim_exchange_code_single_use wDB 100 "code1" "bow_client_c1" none goldenVerifier
    "https://claude.ai/api/mcp/auth_callback" "ra" "rr" (by decide) (by decide)

/-- C2: `exchange_code` returns a token response iff, in evaluation order, the
client validates, a live code row bound to that `client_id` is found, the code
is unexpired, the PKCE S256 check passes, and the stored redirect URI equals
the request's exactly; and whenever the service fails, the token endpoint
answers 400 with the generic `invalid_grant`. -/
theorem claim_exchange_code_success_conditions (db : DB) (now : Nat) (code cid : String)
    (cs : Option String) (cv ru ra rr : String) :
    ((exchange_code db now code cid cs cv ru ra rr).1.isSome = true ↔
      (validate_client db cid cs).isSome = true ∧
      ∃ ac, db.codes.find? (codeLookupQ code cid) = some ac ∧
        ¬ ac.expires_at < now ∧ verify_pkce_s256 cv ac.code_challenge = true ∧
        ac.redirect_uri = ru) ∧
    (∀ form : TokenForm, form.grant_type = "authorization_code" →
      form.code = some code → form.code_verifier = some cv → form.redirect_uri = some ru →
      form.client_id = cid → form.client_secret = cs →
      code ≠ "" → cv ≠ "" → ru ≠ "" →
      (exchange_code db now code cid cs cv ru ra rr).1 = none →
      (token_endpoint db now form ra rr).1 = .err 400 "invalid_grant") := by
  refine ⟨exchange_code_isSome_iff db now code cid cs cv ru ra rr, ?_⟩
  intro form hg hc hcv hru hcid hcs hc0 hcv0 hru0 hnone
  unfold token_endpoint
  rw [hg, hc, hcv, hru, hcid, hcs]
  simp [falsyOpt, hc0, hcv0, hru0, hnone]

/-- C2 witness: on the empty store the exchange fails and the endpoint
returns the generic 400 `invalid_grant`. -/
theorem claim_exchange_code_success_conditions_witness :
    (token_endpoint ⟨[], [], [], [], []⟩ 0
      ⟨"authorization_code", some "c", some "u", "cl", none, some "v", none⟩
      "ra" "rr").1 = .err 400 "invalid_grant" :=
  (claim_exchange_code_success_conditions ⟨[], [], [], [], []⟩ 0 "c" "cl" none "v" "u"
      "ra" "rr").2
    ⟨"authorization_code", some "c", some "u", "cl", none, some "v", none⟩
    rfl rfl rfl rfl rfl rfl (by decide) (by decide) (by decide) (by decide)

/-- C4 counterexample: the claim requires `now` strictly before `expires_at`
for success, but at `now = expires_at` (here both `300`) the exchange
succeeds: the code's expiry test is `expires_at < now`. -/
theorem claim_exchange_code_expiry_counterexample :
    (exchange_code wDB 300 "code1" "bow_client_c1" none goldenVerifier
      "https://claude.ai/api/mcp/auth_callback" "ra" "rr").1.isSome = true := by
  decide

/-- C4 amended: an exchange for a code succeeds only when `now ≤ expires_at`
(equality included); when a request arrives with `now` strictly past
`expires_at`, the exchange fails and the code row is tombstoned (`deleted_at`
set to `now`) as a side effect of that failed exchange. -/
theorem claim_exchange_code_expiry (db : DB) (now : Nat) (code cid : String)
    (cs : Option String) (cv ru ra rr : String) (ac : OAuthMCPAuthorizationCode)
    (hf : db.codes.find? (codeLookupQ code cid) = some ac) :
    ((exchange_code db now code cid cs cv ru ra rr).1.isSome = true →
      now ≤ ac.expires_at) ∧
    ((validate_client db cid cs).isSome = true → ac.expires_at < now →
      (exchange_code db now code cid cs cv ru ra rr).1 = none ∧
      tombCode now ac ∈ (exchange_code db now code cid cs cv ru ra rr).2.codes) := by
  constructor
  · intro hsucc
    obtain ⟨_, ac', hf', hexp', _, _⟩ :=
      (exchange_code_isSome_iff db now code cid cs cv ru ra rr).mp hsucc
    rw [hf] at hf'
    cases hf'
    omega
  · intro hv hexp
    obtain ⟨c, hc⟩ := Option.isSome_iff_exists.mp hv
    rw [exchange_code_expired_state db now code cid cs cv ru ra rr c ac hc hf hexp]
    exact ⟨rfl, updateFirst_mem_of_find? (codeLookupQ code cid) (tombCode now) db.codes ac hf⟩

/-- C4 witness: at `t = 301` (one past expiry) the exchange of `wCode` fails
and its tombstoned row is in the store. -/
theorem claim_exchange_code_expiry_witness :
    ((exchange_code wDB 301 "code1" "bow_client_c1" none goldenVerifier
        "https://claude.ai/api/mcp/auth_callback" "ra" "rr").1.isSome = true →
      301 ≤ wCode.expires_at) ∧
    ((validate_client wDB "bow_client_c1" none).isSome = true → wCode.expires_at < 301 →
      (exchange_code wDB 301 "code1" "bow_client_c1" none goldenVerifier
        "https://claude.ai/api/mcp/auth_callback" "ra" "rr").1 = none ∧
      tombCode 301 wCode ∈ (exchange_code wDB 301 "code1" "bow_client_c1" none goldenVerifier
        "https://claude.ai/api/mcp/auth_callback" "ra" "rr").2.codes) :=
  claim_exchange_code_expiry wDB 301 "code1" "bow_client_c1" none goldenVerifier
    "https://claude.ai/api/mcp/auth_callback" "ra" "rr" wCode (by decide)

/-- C10: a PKCE failure or redirect-URI mismatch leaves the store — and in
particular the code row — completely unchanged, and the same code is still
exchangeable by a later request presenting the correct verifier and redirect
URI. -/
theorem claim_failed_exchange_preserves_code (db : DB) (now : Nat) (code cid : String)
    (cs : Option String) (cv ru ra rr : String) (c : OAuthMCPClient)
    (ac : OAuthMCPAuthorizationCode)
    (hv : validate_client db cid cs = some c)
    (hf : db.codes.find? (codeLookupQ code cid) = some ac)
    (hexp : ¬ ac.expires_at < now)
    (hfail : verify_pkce_s256 cv ac.code_challenge = false ∨ ac.redirect_uri ≠ ru) :
    exchange_code db now code cid cs cv ru ra rr = (none, db) ∧
    (∀ (now2 : Nat) (cv2 ru2 ra2 rr2 : String), ¬ ac.expires_at < now2 →
      verify_pkce_s256 cv2 ac.code_challenge = true → ac.redirect_uri = ru2 →
      (exchange_code db now2 code cid cs cv2 ru2 ra2 rr2).1.isSome = true) := by
  constructor
  · unfold exchange_code
    rw [hv, hf]
    by_cases hpk : verify_pkce_s256 cv ac.code_challenge = true
    · have hne : ac.redirect_uri ≠ ru := by
        rcases hfail with h | h
        · rw [hpk] at h
          simp at h
        · exact h
      simp [hexp, hpk, hne]
    · simp [hexp, hpk]
  · intro now2 cv2 ru2 ra2 rr2 hexp2 hpk2 hru2
    exact (exchange_code_isSome_iff db now2 code cid cs cv2 ru2 ra2 rr2).mpr
      ⟨by rw [hv]; rfl, ac, hf, hexp2, hpk2, hru2⟩

/-- C10 witness: the wrong verifier from the e2e test leaves `wDB` unchanged,
after which the golden verifier still succeeds. -/
theorem claim_failed_exchange_preserves_code_witness :
    exchange_code wDB 100 "code1" "bow_client_c1" none "wrong_verifier_that_doesnt_match"
      "https://claude.ai/api/mcp/auth_callback" "ra" "rr" = (none, wDB) ∧
    (∀ (now2 : Nat) (cv2 ru2 ra2 rr2 : String), ¬ wCode.expires_at < now2 →
      verify_pkce_s256 cv2 wCode.code_challenge = true → wCode.redirect_uri = ru2 →
      (exchange_code wDB now2 "code1" "bow_client_c1" none cv2 ru2 ra2 rr2).1.isSome = true) :=
  claim_failed_exchange_preserves_code wDB 100 "code1" "bow_client_c1" none
    "wrong_verifier_that_doesnt_match" "https://claude.ai/api/mcp/auth_callback" "ra" "rr"
    wClient wCode (by decide) (by decide) (by decide) (Or.inl (by decide))

/-- A SHA-256 digest always begins with at least three bytes. -/
theorem sha256_shape (m : List Nat) :
    ∃ b0 b1 b2 rest, sha256 m = b0 :: b1 :: b2 :: rest :=
  ⟨_, _, _, _, rfl⟩

/-- The computed challenge is never the empty string, so an empty stored
challenge is always rejected. -/
theorem verify_pkce_s256_empty_challenge (v : String) : verify_pkce_s256 v "" = false := by
  obtain ⟨b0, b1, b2, rest, h⟩ := sha256_shape (strBytes v)
  unfold verify_pkce_s256
  rw [h]
  simp only [b64urlNoPad]
  rw [beq_eq_false_iff_ne]
  intro hcontra
  have hdata := congrArg String.data hcontra
  simp at hdata

/-- C3 counterexample: the claim says `_verify_pkce_s256` rejects whenever
either input is empty, but the code has no empty-input check: the empty
verifier is hashed like any other string, and it is *accepted* against the
challenge that equals base64url(SHA-256(""))). -/
theorem claim_verify_pkce_s256_counterexample :
    verify_pkce_s256 "" "47DEQpj8HBSa-_TImW-5JCeuQeRkm5NMpJWZG3hSuFU" = true := by
  decide

/-- C3 amended: `_verify_pkce_s256` returns true iff the unpadded base64url
encoding of SHA-256(verifier) equals the stored challenge; an empty
*challenge* is always rejected (the computed encoding is never empty), but an
empty *verifier* is not specially rejected — it is hashed like any other
string; and the golden RFC 7636 vector is accepted. -/
theorem claim_verify_pkce_s256_spec :
    (∀ v c : String, verify_pkce_s256 v c = true ↔
        String.mk (b64urlNoPad (sha256 (strBytes v))) = c) ∧
    (∀ v : String, verify_pkce_s256 v "" = false) ∧
    verify_pkce_s256 goldenVerifier goldenChallenge = true := by
  refine ⟨fun v c => ?_, verify_pkce_s256_empty_challenge, by decide⟩
  unfold verify_pkce_s256
  exact beq_iff_eq

/-! ## Refresh rotation (C5) -/

/-- Success characterization of `refresh_access_token`: a response is returned
exactly when the client validates, a live row with the matching refresh hash
and client is found, and its `refresh_expires_at` (when present) has not
passed. -/
theorem refresh_isSome_iff (db : DB) (now : Nat) (rt cid : String) (cs : Option String)
    (ra rr : String) :
    (refresh_access_token db now rt cid cs ra rr).1.isSome = true ↔
      (validate_client db cid cs).isSome = true ∧
      ∃ rec, db.tokens.find? (refreshLookupQ (sha256hex rt) cid) = some rec ∧
        (∀ t, rec.refresh_expires_at = some t → ¬ t < now) := by
  unfold refresh_access_token
  cases hv : validate_client db cid cs with
  | none => simp
  | some c =>
    simp only [Option.isSome_some, true_and]
    cases hf : db.tokens.find? (refreshLookupQ (sha256hex rt) cid) with
    | none => simp
    | some rec =>
      cases hre : rec.refresh_expires_at with
      | none => simp [refreshRotate, hre]
      | some t =>
        by_cases ht : t < now
        · simp [refreshRotate, hre, ht]
        · simp [refreshRotate, hre, ht]
          omega

/-- When the client validates, the row is found and the refresh token is not
expired, `refresh_access_token` runs the rotation tail on the matched row. -/
theorem refresh_access_token_eq_of_found (db : DB) (now : Nat) (rt cid : String)
    (cs : Option String) (ra rr : String) (c : OAuthMCPClient)
    (rec : OAuthMCPAccessToken)
    (hv : validate_client db cid cs = some c)
    (hfind : db.tokens.find? (refreshLookupQ (sha256hex rt) cid) = some rec)
    (hexp : ∀ t, rec.refresh_expires_at = some t → ¬ t < now) :
    refresh_access_token db now rt cid cs ra rr =
      refreshRotate db now (sha256hex rt) cid rec ra rr := by
  unfold refresh_access_token
  rw [hv, hfind]
  dsimp only
  cases hre : rec.refresh_expires_at with
  | none => rfl
  | some t =>
    dsimp only
    rw [if_neg (hexp t hre)]

/-- C5: every successful `refresh_access_token` tombstones the old access-token
row, and mints a new access token — different from the old plaintext, whose
hash is the stored `token_hash` — together with a new refresh token, with the
new row carrying the same `user_id`, `organization_id` and `scope` as the old
row.  `hfresh` is the freshness of the CSPRNG draw: the minted token does not
hash to the stored hash. -/
theorem claim_refresh_rotation (db : DB) (now : Nat) (rt cid : String)
    (cs : Option String) (ra rr : String) (rec : OAuthMCPAccessToken) (oldTok : String)
    (hsucc : (refresh_access_token db now rt cid cs ra rr).1.isSome = true)
    (hfind : db.tokens.find? (refreshLookupQ (sha256hex rt) cid) = some rec)
    (hOld : sha256hex oldTok = rec.token_hash)
    (hfresh : sha256hex (ACCESS_TOKEN_KIND ++ ra) ≠ rec.token_hash) :
    ∃ resp, (refresh_access_token db now rt cid cs ra rr).1 = some resp ∧
      resp.access_token = ACCESS_TOKEN_KIND ++ ra ∧
      resp.refresh_token = REFRESH_TOKEN_KIND ++ rr ∧
      resp.access_token ≠ oldTok ∧
      resp.scope = rec.scope ∧
      tombToken now rec ∈ (refresh_access_token db now rt cid cs ra rr).2.tokens ∧
      ∃ newRec ∈ (refresh_access_token db now rt cid cs ra rr).2.tokens,
        newRec.token_hash = sha256hex (ACCESS_TOKEN_KIND ++ ra) ∧
        newRec.user_id = rec.user_id ∧
        newRec.organization_id = rec.organization_id ∧
        newRec.scope = rec.scope ∧
        newRec.deleted_at = none := by
  obtain ⟨hv, rec', hfind', hexp⟩ :=
    (refresh_isSome_iff db now rt cid cs ra rr).mp hsucc
  rw [hfind] at hfind'
  cases hfind'
  obtain ⟨c, hc⟩ := Option.isSome_iff_exists.mp hv
  rw [refresh_access_token_eq_of_found db now rt cid cs ra rr c rec hc hfind hexp]
  refine ⟨_, rfl, rfl, rfl, ?_, rfl, ?_, ?_⟩
  · intro heq
    apply hfresh
    have hplain : ACCESS_TOKEN_KIND ++ ra = oldTok := heq
    rw [hplain]
    exact hOld
  · exact List.mem_append_left _
      (updateFirst_mem_of_find? (refreshLookupQ (sha256hex rt) cid) (tombToken now)
        db.tokens rec hfind)
  · exact ⟨_, List.mem_append_right _ (List.mem_singleton_self _), rfl, rfl, rfl, rfl, rfl⟩

/-- A live access-token row whose plaintexts are `bow_oauth_old` and
`bow_rt_old`, expiring at `t = 3600`. -/
def wToken : OAuthMCPAccessToken :=
  { token_hash := sha256hex "bow_oauth_old"
    client_id := "bow_client_c1"
    user_id := "u1"
    organization_id := "org1"
    scope := "mcp"
    expires_at := 3600
    refresh_token_hash := some (sha256hex "bow_rt_old")
    refresh_expires_at := some 2592000
    deleted_at := none }

/-- A store holding `wClient` and `wToken`. -/
def wDB2 : DB :=
  { clients := [wClient]
    codes := []
    tokens := [wToken]
    users := ["u1"]
    organizations := ["org1"] }

/-- C5 witness: refreshing `bow_rt_old` at `t = 100` succeeds and rotates. -/
theorem claim_refresh_rotation_witness :
    ∃ resp, (refresh_access_token wDB2 100 "bow_rt_old" "bow_client_c1" none "new" "newr").1 =
        some resp ∧
      resp.access_token = ACCESS_TOKEN_KIND ++ "new" ∧
      resp.refresh_token = REFRESH_TOKEN_KIND ++ "newr" ∧
      resp.access_token ≠ "bow_oauth_old" ∧
      resp.scope = wToken.scope ∧
      tombToken 100 wToken ∈
        (refresh_access_token wDB2 100 "bow_rt_old" "bow_client_c1" none "new" "newr").2.tokens ∧
      ∃ newRec ∈
          (refresh_access_token wDB2 100 "bow_rt_old" "bow_client_c1" none "new" "newr").2.tokens,
        newRec.token_hash = sha256hex (ACCESS_TOKEN_KIND ++ "new") ∧
        newRec.user_id = wToken.user_id ∧
        newRec.organization_id = wToken.organization_id ∧
        newRec.scope = wToken.scope ∧
        newRec.deleted_at = none :=
  claim_refresh_rotation wDB2 100 "bow_rt_old" "bow_client_c1" none "new" "newr" wToken
    "bow_oauth_old" (by decide) (by decide) rfl (by decide)

/-! ## Bearer validation (C6) -/

/-- C6 counterexample: the claim requires `expires_at` strictly greater than
`now`, but at `now = expires_at` (both `3600`) validation *returns the pair*:
the code's rejection test is `expires_at < now`. -/
theorem claim_validate_access_token_counterexample :
    validate_access_token wDB2 3600 "bow_oauth_old" = some ("u1", "org1") := by
  decide

/-- C6 amended: `validate_access_token` returns a `(user, organization)` pair
iff the plaintext starts with `bow_oauth_`, a live row whose `token_hash` is
SHA-256(plaintext) exists with `expires_at ≥ now` (the row is rejected only
when `expires_at < now`, so a token is still accepted at `now = expires_at`),
and the referenced user and organization both exist; in every other case it
returns `None`.  The hypothesis is the `token_hash` unique index. -/
theorem claim_validate_access_token_iff (db : DB) (now : Nat) (tok u o : String)
    (huniq : ∀ r1 ∈ db.tokens, ∀ r2 ∈ db.tokens, r1.token_hash = r2.token_hash → r1 = r2) :
    validate_access_token db now tok = some (u, o) ↔
      strHasStart tok ACCESS_TOKEN_KIND = true ∧
      ∃ r ∈ db.tokens, r.token_hash = sha256hex tok ∧ r.deleted_at = none ∧
        ¬ r.expires_at < now ∧ r.user_id ∈ db.users ∧ r.organization_id ∈ db.organizations ∧
        u = r.user_id ∧ o = r.organization_id := by
  unfold validate_access_token
  by_cases hstart : strHasStart tok ACCESS_TOKEN_KIND = true
  · rw [if_neg (by simp [hstart])]
    simp only [hstart, true_and]
    constructor
    · intro h
      cases hf : db.tokens.find? (fun r => r.token_hash == sha256hex tok && r.deleted_at == none) with
      | none => rw [hf] at h; simp at h
      | some rec =>
        rw [hf] at h
        dsimp only at h
        have hp := List.find?_some hf
        simp only [Bool.and_eq_true, beq_iff_eq] at hp
        by_cases hexp : rec.expires_at < now
        · rw [if_pos hexp] at h
          exact absurd h (by simp)
        · rw [if_neg hexp] at h
          cases hub : db.users.contains rec.user_id with
          | false =>
            rw [hub] at h
            simp at h
          | true =>
            rw [hub, if_neg (by decide)] at h
            cases hob : db.organizations.contains rec.organization_id with
            | false =>
              rw [hob] at h
              simp at h
            | true =>
              rw [hob, if_neg (by decide), Option.some_inj] at h
              simp only [Prod.mk.injEq] at h
              exact ⟨rec, List.mem_of_find?_eq_some hf, hp.1, hp.2, hexp,
                List.mem_of_elem_eq_true hub, List.mem_of_elem_eq_true hob,
                h.1.symm, h.2.symm⟩
    · rintro ⟨r, hmem, hhash, hdel, hexp, hu, ho, rfl, rfl⟩
      have hsome : (db.tokens.find?
          (fun s => s.token_hash == sha256hex tok && s.deleted_at == none)).isSome = true := by
        rw [List.find?_isSome]
        exact ⟨r, hmem, by simp [hhash, hdel]⟩
      obtain ⟨rec, hf⟩ := Option.isSome_iff_exists.mp hsome
      have hp := List.find?_some hf
      simp only [Bool.and_eq_true, beq_iff_eq] at hp
      have hrr : rec = r := huniq rec (List.mem_of_find?_eq_some hf) r hmem (hp.1.trans hhash.symm)
      subst hrr
      have hct : db.users.contains rec.user_id = true := List.elem_eq_true_of_mem hu
      have hco : db.organizations.contains rec.organization_id = true :=
        List.elem_eq_true_of_mem ho
      rw [hf]
      dsimp only
      rw [if_neg hexp, hct, hco, if_neg (by decide), if_neg (by decide)]
  · rw [if_pos (by simp [Bool.not_eq_true] at hstart; simp [hstart])]
    constructor
    · intro h
      simp at h
    · rintro ⟨hs, -⟩
      exact absurd hs hstart

/-- C6 witness: at `t = 100` the stored token resolves to `("u1", "org1")`,
matching the characterization. -/
theorem claim_validate_access_token_iff_witness :
    validate_access_token wDB2 100 "bow_oauth_old" = some ("u1", "org1") ↔
      strHasStart "bow_oauth_old" ACCESS_TOKEN_KIND = true ∧
      ∃ r ∈ wDB2.tokens, r.token_hash = sha256hex "bow_oauth_old" ∧ r.deleted_at = none ∧
        ¬ r.expires_at < 100 ∧ r.user_id ∈ wDB2.users ∧
        r.organization_id ∈ wDB2.organizations ∧
        "u1" = r.user_id ∧ "org1" = r.organization_id :=
  claim_validate_access_token_iff wDB2 100 "bow_oauth_old" "u1" "org1" (by decide)

/-! ## MCP auth dispatcher precedence (C7) -/

/-- An API-key service that recognizes exactly the key `bow_k1`. -/
def ceSvc : ApiKeyService :=
  { get_user_by_api_key := fun k => if k == "bow_k1" then some "apiUser" else none
    get_organization_by_api_key := fun k => if k == "bow_k1" then some "apiOrg" else none }

/-- A request carrying a resolved session user whose organization selection
fails, together with a valid API key. -/
def ceReq : McpRequest :=
  { jwt_user := some "sessionUser"
    session_org := none
    api_key := some "bow_k1"
    authorization := none }

/-- C7 counterexample: the claim says that once a session token resolves to a
live user the dispatcher must not attempt the remaining schemes, but when the
organization selection fails the code catches the exception and falls through:
here the session user resolved, yet the dispatcher answers with the API-key
identity. -/
theorem claim_mcp_auth_precedence_counterexample :
    ceReq.jwt_user = some "sessionUser" ∧
    mcp_auth ⟨[], [], [], [], []⟩ 0 ceSvc ceReq = .ok "apiUser" "apiOrg" :=
  ⟨rfl, rfl⟩

/-- C7 amended: the dispatcher tries session bearer, then the API-key header,
then `Authorization: Bearer`, returning on the first full success; a session
user whose organization selection succeeds wins outright; a recognized
(`bow_oauth_`-prefixed) but invalid or expired Bearer token is *not* retried
as an API key and yields the 401; but a session user whose organization
selection fails does fall through to the API-key and Bearer schemes. -/
theorem claim_mcp_auth_precedence (db : DB) (now : Nat) (svc : ApiKeyService)
    (req : McpRequest) :
    (∀ u o, req.jwt_user = some u → req.session_org = some o →
        mcp_auth db now svc req = .ok u o) ∧
    (∀ u, req.jwt_user = some u → req.session_org = none →
        mcp_auth db now svc req = mcp_auth_apikey db now svc req) ∧
    (req.jwt_user = none → req.api_key = none → ∀ t, bearerToken req = some t →
        strHasStart t "bow_oauth_" = true → validate_access_token db now t = none →
        mcp_auth db now svc req = .http401) := by
  refine ⟨?_, ?_, ?_⟩
  · intro u o hu ho
    unfold mcp_auth
    rw [hu, ho]
  · intro u hu ho
    unfold mcp_auth
    rw [hu, ho]
  · intro hj hk t hb hstart hval
    unfold mcp_auth
    rw [hj]
    unfold mcp_auth_apikey
    rw [hk]
    unfold mcp_auth_bearer
    rw [hb]
    dsimp only
    rw [if_pos hstart, hval]
    dsimp only
    rw [if_neg (by simp [hstart])]

/-- C7 witness: the three amended conjuncts at concrete requests — a full
session success, the fall-through request `ceReq`, and an unknown
`bow_oauth_` bearer that is not retried as an API key. -/
theorem claim_mcp_auth_precedence_witness :
    mcp_auth ⟨[], [], [], [], []⟩ 0 ceSvc ⟨some "u9", some "o9", some "bow_k1", none⟩ =
      .ok "u9" "o9" ∧
    mcp_auth ⟨[], [], [], [], []⟩ 0 ceSvc ceReq =
      mcp_auth_apikey ⟨[], [], [], [], []⟩ 0 ceSvc ceReq ∧
    mcp_auth ⟨[], [], [], [], []⟩ 0 ceSvc ⟨none, none, none, some "Bearer bow_oauth_x"⟩ =
      .http401 :=
  ⟨(claim_mcp_auth_precedence ⟨[], [], [], [], []⟩ 0 ceSvc
      ⟨some "u9", some "o9", some "bow_k1", none⟩).1 "u9" "o9" rfl rfl,
   (claim_mcp_auth_precedence ⟨[], [], [], [], []⟩ 0 ceSvc ceReq).2.1 "sessionUser" rfl rfl,
   (claim_mcp_auth_precedence ⟨[], [], [], [], []⟩ 0 ceSvc
      ⟨none, none, none, some "Bearer bow_oauth_x"⟩).2.2 rfl rfl "bow_oauth_x" rfl
      (by decide) rfl⟩

/-! ## MCP tools/call envelope (C8) -/

/-- C8: when the named tool is found, a raised tool exception yields a
*successful* JSON-RPC response (the `result` constructor, not the JSON-RPC
error object) whose result is `{content: [{type: "text", text: <message>}],
isError: true}`, and a normal return yields the same shape with
`isError: false` and `text` the JSON-stringified result. -/
theorem claim_tools_call_envelope (reg : ToolRegistry) (user org : String)
    (req : JsonRpcRequest) (tool_name : String)
    (execute : Json → String → String → Except String Json)
    (hm : req.method = "tools/call")
    (hn : (req.params.bind (fun p => p.name)).getD "" = tool_name)
    (hne : tool_name ≠ "")
    (ht : reg.get_mcp_tool tool_name = some execute) :
    (∀ e, execute ((req.params.bind (fun p => p.arguments)).getD (.obj [])) user org =
        .error e →
      mcp_handle reg user org req = jsonrpc_response req.id (toolCallEnvelope e true)) ∧
    (∀ v, execute ((req.params.bind (fun p => p.arguments)).getD (.obj [])) user org =
        .ok v →
      mcp_handle reg user org req =
        jsonrpc_response req.id (toolCallEnvelope (Json.dumps v) false)) := by
  constructor <;> intro x hx <;>
    (unfold mcp_handle
     rw [hm]
     rw [if_neg (by decide), if_neg (by decide), if_pos (by decide)]
     dsimp only
     rw [hn, if_neg (by simp [hne]), ht]
     dsimp only
     rw [hx])

/-- A tool execution that raises on empty arguments and echoes otherwise. -/
def ceExec : Json → String → String → Except String Json :=
  fun args _ _ =>
    match args with
    | .obj [] => .error "boom"
    | j => .ok j

/-- A registry exposing the single tool `echo` backed by `ceExec`. -/
def ceReg : ToolRegistry :=
  { list_mcp_tools := []
    get_mcp_tool := fun n => if n == "echo" then some ceExec else none }

/-- A `tools/call` request for `echo` with no arguments. -/
def ceRpcReq : JsonRpcRequest :=
  { jsonrpc := "2.0"
    id := some (.num 1)
    method := "tools/call"
    params := some { name := some "echo", arguments := none } }

/-- C8 witness: calling `echo` with no arguments raises `boom`, and the
gateway answers with the successful error envelope. -/
theorem claim_tools_call_envelope_witness :
    mcp_handle ceReg "u1" "org1" ceRpcReq =
      jsonrpc_response ceRpcReq.id (toolCallEnvelope "boom" true) :=
  (claim_tools_call_envelope ceReg "u1" "org1" ceRpcReq "echo" ceExec rfl rfl
      (by decide) rfl).1 "boom" rfl

/-! ## Client redirect-URI storage (C9) -/

/-- C9 counterexample: the claim says every created client stores a non-empty
redirect-URI list even when one is explicitly supplied, but an explicitly
supplied empty list is stored as-is. -/
theorem claim_create_client_redirect_uris_counterexample :
    (create_client ⟨[], [], [], [], []⟩ "org1" "Claude Web" (some [])
      "id1" "c1" "s1").1.redirect_uris = [] :=
  rfl

/-- The default allowlist is non-empty. -/
theorem claude_uris_ne_nil : CLAUDE_REDIRECT_URIS ≠ [] := by decide

/-- C9 amended: when `redirect_uris` is omitted the stored client carries the
non-empty default allowlist; when it is explicitly supplied the list is stored
as-is (so only a non-empty supplied list yields a non-empty stored list); and
in both cases the built row is exactly the one appended to the store. -/
theorem claim_create_client_redirect_uris (db : DB) (org nm newId rawCid rawSec : String) :
    ((create_client db org nm none newId rawCid rawSec).1.redirect_uris =
        CLAUDE_REDIRECT_URIS ∧
      (create_client db org nm none newId rawCid rawSec).1.redirect_uris ≠ []) ∧
    (∀ l, (create_client db org nm (some l) newId rawCid rawSec).1.redirect_uris = l) ∧
    (∀ o, (create_client db org nm o newId rawCid rawSec).2.clients =
        db.clients ++ [(create_client db org nm o newId rawCid rawSec).1]) :=
  ⟨⟨rfl, claude_uris_ne_nil⟩, fun _ => rfl, fun _ => rfl⟩

end MetricChat
